import Mathlib

/-!
Verification of the MAC-changer tool (machanger.py) against its
specification.  The Python source is embedded shallowly: pure helpers
become Lean functions, the external world (ifconfig invocations, the
random generator, the on-disk JSON record file) is passed in explicitly,
and fallible operations return Option, where `none` models an unhandled
Python exception (abnormal termination).
-/

namespace Machanger

/-! ## Character classes used by the regular expression and formatting -/

/-- Whitespace characters matched by the regex class in search patterns. -/
def isWs (c : Char) : Bool :=
  c = ' ' || c = '\t' || c = '\n' || c = '\r' || c = '\x0b' || c = '\x0c'

/-- Characters of the regex class for hex-or-colon used in get_current_mac. -/
def isMacChar (c : Char) : Bool :=
  ('0' ≤ c && c ≤ '9') || ('a' ≤ c && c ≤ 'f') || ('A' ≤ c && c ≤ 'F') || c = ':'

/-- Lowercase hex digit. -/
def isLowerHexDigit (c : Char) : Bool :=
  ('0' ≤ c && c ≤ '9') || ('a' ≤ c && c ≤ 'f')

/-- A string of exactly six lowercase two-hex-digit groups joined by colons:
the canonical MAC format of the spec. -/
def isCanonicalMac (cs : List Char) : Bool :=
  match cs with
  | [a, b, s1, c, d, s2, e, f, s3, g, h, s4, i, j, s5, k, l] =>
    isLowerHexDigit a && isLowerHexDigit b && (s1 == ':') &&
    isLowerHexDigit c && isLowerHexDigit d && (s2 == ':') &&
    isLowerHexDigit e && isLowerHexDigit f && (s3 == ':') &&
    isLowerHexDigit g && isLowerHexDigit h && (s4 == ':') &&
    isLowerHexDigit i && isLowerHexDigit j && (s5 == ':') &&
    isLowerHexDigit k && isLowerHexDigit l
  | _ => false

/-! ## get_current_mac: regex extraction from the command output

The Python code runs the external command, then searches its output text
for the leftmost occurrence of the literal word followed by one or more
whitespace characters and seventeen characters of the hex-or-colon class,
capturing those seventeen characters.  Whitespace characters are never in
the hex-or-colon class, so greedy matching without backtracking coincides
with the full regex semantics here. -/

/-- Consume a literal prefix of characters; give back the rest on success. -/
def dropLit : List Char → List Char → Option (List Char)
  | [], cs => some cs
  | _ :: _, [] => none
  | p :: ps, c :: cs => if c = p then dropLit ps cs else none

/-- Try to match the pattern at the head of the text: the literal word,
then one or more whitespace characters, then seventeen characters of the
hex-or-colon class (the capture group). -/
def matchEtherAt (cs : List Char) : Option (List Char) :=
  match dropLit ['e', 't', 'h', 'e', 'r'] cs with
  | none => none
  | some rest =>
    if (rest.takeWhile isWs).isEmpty then none
    else
      if ((rest.dropWhile isWs).take 17).length = 17
          ∧ ((rest.dropWhile isWs).take 17).all isMacChar
      then some ((rest.dropWhile isWs).take 17)
      else none

/-- Leftmost-match search of the pattern over the whole text. -/
def searchEther : List Char → Option (List Char)
  | [] => none
  | c :: cs =>
    match matchEtherAt (c :: cs) with
    | some g => some g
    | none => searchEther cs

/-- get_current_mac: the input is the output of the external command in
show mode, or `none` when the command exited non-zero (the handled
CalledProcessError case).  Returns the captured group, or `none` when the
command failed or the pattern is absent. -/
def get_current_mac (cmdOutput : Option String) : Option String :=
  match cmdOutput with
  | none => none
  | some out =>
    match searchEther out.toList with
    | some g => some (String.mk g)
    | none => none

/-! ## generate_random_mac

The Python code draws six bytes uniformly from 0 to 255; the first is
masked with 0xFE and combined with 0x02, and the list is rendered with the
two-digit lowercase hex format joined by colons.  The drawn bytes are the
explicit inputs here. -/

/-- One lowercase hex digit for a value below 16. -/
def hexDigit (n : Nat) : Char :=
  if n < 10 then Char.ofNat (48 + n) else Char.ofNat (87 + n)

/-- Two-digit lowercase hex rendering of a byte (the 02x format). -/
def toHex2 (b : Nat) : List Char :=
  [hexDigit (b / 16), hexDigit (b % 16)]

/-- Join character groups with a colon separator. -/
def joinColon : List (List Char) → List Char
  | [] => []
  | [g] => g
  | g :: gs => g ++ ':' :: joinColon gs

/-- The six bytes of the generated MAC: the first random byte is forced to
a locally-administered unicast first byte, the other five are kept. -/
def generate_random_mac_bytes (r0 r1 r2 r3 r4 r5 : Nat) : List Nat :=
  [(r0 &&& 0xFE) ||| 0x02, r1, r2, r3, r4, r5]

/-- generate_random_mac: format the six bytes as colon-joined lowercase hex. -/
def generate_random_mac (r0 r1 r2 r3 r4 r5 : Nat) : String :=
  String.mk (joinColon ((generate_random_mac_bytes r0 r1 r2 r3 r4 r5).map toHex2))

/-! ### Helper lemmas for C1 -/

theorem hexDigit_lower : ∀ n : Nat, n < 16 → isLowerHexDigit (hexDigit n) = true := by
  decide

theorem first_byte_lt_256 (r0 : Nat) (h : r0 < 256) :
    (r0 &&& 0xFE) ||| 0x02 < 256 := by
  have h1 : r0 &&& 0xFE ≤ r0 := Nat.and_le_left
  have h2 : r0 &&& 0xFE < 2 ^ 8 := lt_of_le_of_lt h1 h
  have h3 : (2 : Nat) < 2 ^ 8 := by norm_num
  have := Nat.or_lt_two_pow h2 h3
  simpa using this

example : generate_random_mac 0 0 0 0 0 0 = "02:00:00:00:00:00" := by decide

example : isCanonicalMac (generate_random_mac 255 255 1 2 3 16).toList = true := by decide

/-- C1: for every output of the random MAC generator (random bytes each
below 256), the first byte equals the first drawn byte masked with 0xFE
and combined with 0x02, so its bit 1 is set and its bit 0 is cleared, and
the formatted result is six lowercase two-hex-digit groups joined by
colons. -/
theorem generate_random_mac_locally_administered_unicast
    (r0 r1 r2 r3 r4 r5 : Nat)
    (h0 : r0 < 256) (h1 : r1 < 256) (h2 : r2 < 256)
    (h3 : r3 < 256) (h4 : r4 < 256) (h5 : r5 < 256) :
    (generate_random_mac_bytes r0 r1 r2 r3 r4 r5).head? = some ((r0 &&& 0xFE) ||| 0x02)
    ∧ Nat.testBit ((r0 &&& 0xFE) ||| 0x02) 1 = true
    ∧ Nat.testBit ((r0 &&& 0xFE) ||| 0x02) 0 = false
    ∧ isCanonicalMac (generate_random_mac r0 r1 r2 r3 r4 r5).toList = true := by
  have hfb : (r0 &&& 0xFE) ||| 0x02 < 256 := first_byte_lt_256 r0 h0
  refine ⟨rfl, ?_, ?_, ?_⟩
  · rw [Nat.testBit_or]
    have hb : Nat.testBit 2 1 = true := by decide
    simp [hb]
  · rw [Nat.testBit_or, Nat.testBit_and]
    have ha : Nat.testBit 254 0 = false := by decide
    have hb : Nat.testBit 2 0 = false := by decide
    simp [ha, hb]
  · show isCanonicalMac
      (joinColon ((generate_random_mac_bytes r0 r1 r2 r3 r4 r5).map toHex2)) = true
    simp only [generate_random_mac_bytes, List.map, joinColon, toHex2,
      List.cons_append, List.nil_append, isCanonicalMac]
    simp only [Bool.and_eq_true, beq_self_eq_true, and_true, true_and]
    repeat' apply And.intro
    all_goals exact hexDigit_lower _ (by omega)

/-! ## set_mac_address: the MAC writer

The Python code issues three commands (interface down, set hardware
address, interface up) whose integer exit statuses it discards, then
re-reads the MAC with get_current_mac and compares for string equality.
The environment carries the three exit statuses and the text output the
verification read will see (`none` models a failing read command). -/

structure WriterEnv where
  downStatus : Int
  setStatus : Int
  upStatus : Int
  verifyOutput : Option String
deriving DecidableEq

/-- set_mac_address: the three step statuses are bound and dropped exactly
as the code drops the return values of the three calls; success is the
equality comparison of the verification read with the target. -/
def set_mac_address (env : WriterEnv) (new_mac : String) : Bool :=
  let _down := env.downStatus
  let _set := env.setStatus
  let _up := env.upStatus
  match get_current_mac env.verifyOutput with
  | some current_mac => current_mac == new_mac
  | none => false

theorem set_mac_address_eq_beq (env : WriterEnv) (m : String) :
    set_mac_address env m = (get_current_mac env.verifyOutput == some m) := by
  unfold set_mac_address
  cases get_current_mac env.verifyOutput with
  | none => rfl
  | some c => rfl

/-- C2: set_mac_address succeeds exactly when the post-change verification
read equals the requested MAC, and the exit statuses of the down, set and
up steps never affect the result. -/
theorem set_mac_address_success_iff_verified
    (d s u d2 s2 u2 : Int) (v : Option String) (new_mac : String) :
    (set_mac_address (WriterEnv.mk d s u v) new_mac = true
      ↔ get_current_mac v = some new_mac)
    ∧ set_mac_address (WriterEnv.mk d s u v) new_mac
      = set_mac_address (WriterEnv.mk d2 s2 u2 v) new_mac := by
  constructor
  · rw [set_mac_address_eq_beq]
    simp [beq_iff_eq]
  · rw [set_mac_address_eq_beq, set_mac_address_eq_beq]

/-- C9: whenever the verification re-read inside the writer returns null
after the down, set, up sequence — whether because the read command
failed or because its output lacked the MAC pattern — set_mac_address
returns false, the same failure value as a mismatching read. -/
theorem set_mac_address_null_read_fails (env : WriterEnv) (new_mac : String)
    (h : get_current_mac env.verifyOutput = none) :
    set_mac_address env new_mac = false := by
  rw [set_mac_address_eq_beq, h]
  rfl

/-- C9 witness: a verification read whose command succeeded but whose
output lacks the MAC pattern. -/
theorem set_mac_address_null_read_fails_witness :
    set_mac_address (WriterEnv.mk 0 0 0 (some "no hardware address line"))
      "02:aa:aa:aa:aa:aa" = false :=
  set_mac_address_null_read_fails
    (WriterEnv.mk 0 0 0 (some "no hardware address line"))
    "02:aa:aa:aa:aa:aa" (by decide)

/-! ## Shape of every successful get_current_mac result (for C8) -/

theorem matchEtherAt_shape (cs g : List Char) (h : matchEtherAt cs = some g) :
    g.length = 17 ∧ g.all isMacChar = true := by
  unfold matchEtherAt at h
  split at h
  · exact absurd h (by simp)
  · split at h
    · exact absurd h (by simp)
    · split at h
      · rename_i hcond
        cases h
        exact ⟨hcond.1, hcond.2⟩
      · exact absurd h (by simp)

theorem searchEther_shape (cs g : List Char) (h : searchEther cs = some g) :
    g.length = 17 ∧ g.all isMacChar = true := by
  induction cs with
  | nil => exact absurd h (by simp [searchEther])
  | cons c rest ih =>
    rw [searchEther] at h
    cases hm : matchEtherAt (c :: rest) with
    | some g2 =>
      rw [hm] at h
      cases h
      exact matchEtherAt_shape _ _ hm
    | none =>
      rw [hm] at h
      exact ih h

/-- C8 counterexample: the reader can return a non-canonical string.  On
the command output that shows an uppercase MAC, get_current_mac returns
the uppercase seventeen-character capture, which does not match the
canonical lowercase colon-hex format. -/
theorem get_current_mac_not_always_canonical :
    get_current_mac (some "ether AA:BB:CC:DD:EE:FF") = some "AA:BB:CC:DD:EE:FF"
    ∧ isCanonicalMac ("AA:BB:CC:DD:EE:FF".toList) = false := by
  exact ⟨by decide, by decide⟩

/-- C8 (amended): whenever get_current_mac returns a non-null string, that
string is the seventeen-character capture of the regex: its characters are
drawn from the hex-digit-or-colon class (uppercase allowed), but it need
not be in canonical lowercase form. -/
theorem get_current_mac_shape (cmdOutput : Option String) (s : String)
    (h : get_current_mac cmdOutput = some s) :
    s.toList.length = 17 ∧ s.toList.all isMacChar = true := by
  cases cmdOutput with
  | none => exact absurd h (by simp [get_current_mac])
  | some out =>
    simp only [get_current_mac] at h
    cases hs : searchEther out.toList with
    | none =>
      rw [hs] at h
      exact absurd h (by simp)
    | some g =>
      rw [hs] at h
      cases h
      exact searchEther_shape _ _ hs

/-- C8 witness: the amended theorem applied at a concrete lowercase
command output. -/
theorem get_current_mac_shape_witness :
    ("aa:bb:cc:dd:ee:ff".toList.length = 17
      ∧ "aa:bb:cc:dd:ee:ff".toList.all isMacChar = true) :=
  get_current_mac_shape (some "ether aa:bb:cc:dd:ee:ff") "aa:bb:cc:dd:ee:ff" (by decide)

/-! ## The original-MAC store (the JSON record file)

The file on disk is modelled by three states: absent, present but not
valid JSON, or present with a parsed JSON object.  Python dicts preserve
insertion order and have unique keys, so the object is an association
list looked up on the first matching key; a fresh key is inserted at the
end.  A result of `none` from save or get models the unhandled
json.load exception (abnormal termination). -/

inductive ConfigFile where
  | absent : ConfigFile
  | invalid : ConfigFile
  | valid : List (String × String) → ConfigFile
deriving DecidableEq

/-- Dictionary lookup: config.get(interface) on the parsed JSON object. -/
def cfgGet : List (String × String) → String → Option String
  | [], _ => none
  | (k, v) :: rest, i => if k = i then some v else cfgGet rest i

/-- The conditional insert of save_original_mac: only when the interface
key is absent is the pair added (at the end, as dict insertion does). -/
def saveStep (config : List (String × String)) (iface mac : String) :
    List (String × String) :=
  match cfgGet config iface with
  | none => config ++ [(iface, mac)]
  | some _ => config

/-- save_original_mac: load the file (an absent file means an empty
mapping, invalid JSON raises), conditionally insert, and always write the
whole mapping back. -/
def save_original_mac (file : ConfigFile) (iface mac : String) : Option ConfigFile :=
  match file with
  | .invalid => none
  | .absent => some (.valid (saveStep [] iface mac))
  | .valid config => some (.valid (saveStep config iface mac))

/-- get_original_mac: an absent file returns None directly; invalid JSON
raises; otherwise the lookup result (which may itself be None) is
returned.  The outer Option models abnormal termination, the inner one
the returned value. -/
def get_original_mac (file : ConfigFile) (iface : String) : Option (Option String) :=
  match file with
  | .invalid => none
  | .absent => some none
  | .valid config => some (cfgGet config iface)

/-! ### Store lemmas -/

theorem cfgGet_append_ne (config : List (String × String)) (i j m : String)
    (h : j ≠ i) : cfgGet (config ++ [(i, m)]) j = cfgGet config j := by
  induction config with
  | nil =>
    simp only [List.nil_append, cfgGet]
    rw [if_neg fun h2 => h h2.symm]
  | cons p rest ih =>
    cases p with
    | mk k v =>
      by_cases hk : k = j
      · simp [cfgGet, hk]
      · simp [cfgGet, hk, ih]

theorem cfgGet_append_self (config : List (String × String)) (i m : String)
    (h : cfgGet config i = none) :
    cfgGet (config ++ [(i, m)]) i = some m := by
  induction config with
  | nil => simp [cfgGet]
  | cons p rest ih =>
    cases p with
    | mk k v =>
      by_cases hk : k = i
      · rw [cfgGet, if_pos hk] at h
        exact absurd h (by simp)
      · rw [cfgGet, if_neg hk] at h
        simp only [List.cons_append, cfgGet]
        rw [if_neg hk]
        exact ih h

/-- C3: first-write-wins.  When the store already records an original MAC
for the interface, save leaves the stored value unchanged for any new
value; and from a state with no entry, saving twice with two values
leaves the stored value equal to the first one written. -/
theorem save_original_mac_first_write_wins (file : ConfigFile) (iface mac : String) :
    (∀ v, get_original_mac file iface = some (some v) →
      ∃ f1, save_original_mac file iface mac = some f1
        ∧ get_original_mac f1 iface = some (some v))
    ∧ (∀ m2, get_original_mac file iface = some none →
      ∃ f1 f2, save_original_mac file iface mac = some f1
        ∧ save_original_mac f1 iface m2 = some f2
        ∧ get_original_mac f2 iface = some (some mac)) := by
  constructor
  · intro v hv
    cases file with
    | invalid => exact absurd hv (by simp [get_original_mac])
    | absent => exact absurd hv (by simp [get_original_mac])
    | valid config =>
      simp only [get_original_mac, Option.some.injEq] at hv
      refine ⟨ConfigFile.valid config, ?_, ?_⟩
      · simp [save_original_mac, saveStep, hv]
      · simp [get_original_mac, hv]
  · intro m2 hn
    cases file with
    | invalid => exact absurd hn (by simp [get_original_mac])
    | absent =>
      refine ⟨ConfigFile.valid [(iface, mac)], ConfigFile.valid [(iface, mac)], ?_, ?_, ?_⟩
      · simp [save_original_mac, saveStep, cfgGet]
      · simp [save_original_mac, saveStep, cfgGet]
      · simp [get_original_mac, cfgGet]
    | valid config =>
      simp only [get_original_mac, Option.some.injEq] at hn
      have hself := cfgGet_append_self config iface mac hn
      refine ⟨ConfigFile.valid (config ++ [(iface, mac)]),
        ConfigFile.valid (config ++ [(iface, mac)]), ?_, ?_, ?_⟩
      · simp [save_original_mac, saveStep, hn]
      · simp [save_original_mac, saveStep, hself]
      · simp [get_original_mac, hself]

/-- C3 witness: an existing entry survives a save with a different value,
and a double save from an absent file keeps the first value. -/
theorem save_original_mac_first_write_wins_witness :
    (∃ f1, save_original_mac (ConfigFile.valid [("eth0", "00:11:22:33:44:55")])
        "eth0" "02:aa:aa:aa:aa:aa" = some f1
      ∧ get_original_mac f1 "eth0" = some (some "00:11:22:33:44:55"))
    ∧ (∃ f1 f2, save_original_mac ConfigFile.absent "eth0" "02:aa:aa:aa:aa:aa" = some f1
      ∧ save_original_mac f1 "eth0" "02:bb:bb:bb:bb:bb" = some f2
      ∧ get_original_mac f2 "eth0" = some (some "02:aa:aa:aa:aa:aa")) :=
  ⟨(save_original_mac_first_write_wins
      (ConfigFile.valid [("eth0", "00:11:22:33:44:55")]) "eth0" "02:aa:aa:aa:aa:aa").1
      "00:11:22:33:44:55" (by decide),
   (save_original_mac_first_write_wins
      ConfigFile.absent "eth0" "02:aa:aa:aa:aa:aa").2
      "02:bb:bb:bb:bb:bb" (by decide)⟩

/-- C4: round-trip of the store.  With no existing entry (whether the
file is absent or present without the key), save then get returns
exactly the saved MAC; and get returns the inner None both on an absent
file and on a file without an entry for the interface. -/
theorem save_get_round_trip (config : List (String × String)) (iface mac : String)
    (h : cfgGet config iface = none) :
    (∃ f1, save_original_mac (ConfigFile.valid config) iface mac = some f1
      ∧ get_original_mac f1 iface = some (some mac))
    ∧ (∃ f1, save_original_mac ConfigFile.absent iface mac = some f1
      ∧ get_original_mac f1 iface = some (some mac))
    ∧ get_original_mac ConfigFile.absent iface = some none
    ∧ get_original_mac (ConfigFile.valid config) iface = some none := by
  have hself := cfgGet_append_self config iface mac h
  refine ⟨⟨ConfigFile.valid (config ++ [(iface, mac)]), ?_, ?_⟩,
    ⟨ConfigFile.valid [(iface, mac)], ?_, ?_⟩, rfl, ?_⟩
  · simp [save_original_mac, saveStep, h]
  · simp [get_original_mac, hself]
  · simp [save_original_mac, saveStep, cfgGet]
  · simp [get_original_mac, cfgGet]
  · simp [get_original_mac, h]

/-- C4 witness at a concrete empty config. -/
theorem save_get_round_trip_witness :
    (∃ f1, save_original_mac (ConfigFile.valid []) "eth0" "aa:bb:cc:dd:ee:ff" = some f1
      ∧ get_original_mac f1 "eth0" = some (some "aa:bb:cc:dd:ee:ff"))
    ∧ (∃ f1, save_original_mac ConfigFile.absent "eth0" "aa:bb:cc:dd:ee:ff" = some f1
      ∧ get_original_mac f1 "eth0" = some (some "aa:bb:cc:dd:ee:ff"))
    ∧ get_original_mac ConfigFile.absent "eth0" = some none
    ∧ get_original_mac (ConfigFile.valid []) "eth0" = some none :=
  save_get_round_trip [] "eth0" "aa:bb:cc:dd:ee:ff" (by decide)

/-- C10: frame property of save.  For any interface j other than the one
saved, the stored value for j after a successful save equals its value
before the save. -/
theorem save_original_mac_frame (file f1 : ConfigFile) (iface j mac : String)
    (hne : j ≠ iface)
    (hsave : save_original_mac file iface mac = some f1) :
    get_original_mac f1 j = get_original_mac file j := by
  cases file with
  | invalid => exact absurd hsave (by simp [save_original_mac])
  | absent =>
    simp only [save_original_mac, Option.some.injEq] at hsave
    subst hsave
    simp [get_original_mac, saveStep, cfgGet, Ne.symm hne]
  | valid config =>
    simp only [save_original_mac, Option.some.injEq] at hsave
    subst hsave
    unfold saveStep
    cases hc : cfgGet config iface with
    | none =>
      simp [get_original_mac, cfgGet_append_ne config iface j mac hne]
    | some v =>
      simp [get_original_mac]

/-- C10 witness: saving a new interface leaves another one untouched. -/
theorem save_original_mac_frame_witness :
    get_original_mac
      (ConfigFile.valid [("wlan0", "11:11:11:11:11:11"), ("eth0", "aa:bb:cc:dd:ee:ff")])
      "wlan0"
    = get_original_mac (ConfigFile.valid [("wlan0", "11:11:11:11:11:11")]) "wlan0" :=
  save_original_mac_frame
    (ConfigFile.valid [("wlan0", "11:11:11:11:11:11")])
    (ConfigFile.valid [("wlan0", "11:11:11:11:11:11"), ("eth0", "aa:bb:cc:dd:ee:ff")])
    "eth0" "wlan0" "aa:bb:cc:dd:ee:ff" (by decide) (by decide)

/-! ## main: the command orchestrator

The argparse result carries the positional interface, the optional
explicit MAC and the two boolean flags.  The world carries the command
output the preamble read will see, the state of the record file, the six
random bytes a generation would consume, and the writer environment.
The result records the terminal outcome, the record-file state at
termination, and the list of targets passed to set_mac_address. -/

structure Args where
  interface : String
  mac : Option String
  restore : Bool
  showFlag : Bool
deriving DecidableEq

structure World where
  readOutput : Option String
  configFile : ConfigFile
  r0 : Nat
  r1 : Nat
  r2 : Nat
  r3 : Nat
  r4 : Nat
  r5 : Nat
  writerEnv : WriterEnv
deriving DecidableEq

inductive Outcome where
  | readError : Outcome
  | crash : Outcome
  | showed : String → String → Outcome
  | changed : String → Bool → Outcome
deriving DecidableEq

structure MainResult where
  outcome : Outcome
  finalConfig : ConfigFile
  writerCalls : List String
deriving DecidableEq

/-- Python falsiness of an optional string: None and the empty string. -/
def falsy : Option String → Bool
  | none => true
  | some s => s.isEmpty

/-- The three flag-selected actions after the preamble, in the precedence
order of the code: show first, then restore, else set (explicit MAC when
given and non-falsy, otherwise a freshly generated random one). -/
def mainActions (a : Args) (w : World) (file : ConfigFile)
    (current original : String) : MainResult :=
  if a.showFlag then
    MainResult.mk (Outcome.showed current original) file []
  else if a.restore then
    MainResult.mk (Outcome.changed original (set_mac_address w.writerEnv original))
      file [original]
  else
    match a.mac with
    | some m =>
      if m.isEmpty then
        MainResult.mk
          (Outcome.changed (generate_random_mac w.r0 w.r1 w.r2 w.r3 w.r4 w.r5)
            (set_mac_address w.writerEnv (generate_random_mac w.r0 w.r1 w.r2 w.r3 w.r4 w.r5)))
          file [generate_random_mac w.r0 w.r1 w.r2 w.r3 w.r4 w.r5]
      else
        MainResult.mk (Outcome.changed m (set_mac_address w.writerEnv m)) file [m]
    | none =>
      MainResult.mk
        (Outcome.changed (generate_random_mac w.r0 w.r1 w.r2 w.r3 w.r4 w.r5)
          (set_mac_address w.writerEnv (generate_random_mac w.r0 w.r1 w.r2 w.r3 w.r4 w.r5)))
        file [generate_random_mac w.r0 w.r1 w.r2 w.r3 w.r4 w.r5]

/-- main: the preamble reads the current MAC (a falsy result reports an
error and returns), looks up the stored original (a JSON parse error
propagates as a crash), records the current MAC as original when none is
stored, then dispatches on the flags. -/
def main (a : Args) (w : World) : MainResult :=
  match get_current_mac w.readOutput with
  | none => MainResult.mk Outcome.readError w.configFile []
  | some cm =>
    if cm.isEmpty then MainResult.mk Outcome.readError w.configFile []
    else
      match get_original_mac w.configFile a.interface with
      | none => MainResult.mk Outcome.crash w.configFile []
      | some origOpt =>
        if falsy origOpt then
          match save_original_mac w.configFile a.interface cm with
          | none => MainResult.mk Outcome.crash w.configFile []
          | some file2 => mainActions a w file2 cm cm
        else
          mainActions a w w.configFile cm (origOpt.getD cm)

/-- C5: a record file that exists but is not valid JSON makes save and
get terminate abnormally, and any main invocation whose preamble read
succeeds crashes at the store lookup instead of producing a handled
error. -/
theorem invalid_record_crashes (iface mac : String) (a : Args) (w : World)
    (hfile : w.configFile = ConfigFile.invalid) :
    save_original_mac ConfigFile.invalid iface mac = none
    ∧ get_original_mac ConfigFile.invalid iface = none
    ∧ (∀ cm, get_current_mac w.readOutput = some cm → cm.isEmpty = false →
        main a w = MainResult.mk Outcome.crash ConfigFile.invalid []) := by
  refine ⟨rfl, rfl, ?_⟩
  intro cm hcm hemp
  unfold main
  rw [hcm, hfile]
  simp [hemp, get_original_mac]

/-- C5 witness at a concrete invalid record file and successful read. -/
theorem invalid_record_crashes_witness :
    save_original_mac ConfigFile.invalid "eth0" "aa:bb:cc:dd:ee:ff" = none
    ∧ get_original_mac ConfigFile.invalid "eth0" = none
    ∧ main (Args.mk "eth0" none false false)
        (World.mk (some "ether aa:bb:cc:dd:ee:ff") ConfigFile.invalid
          0 0 0 0 0 0 (WriterEnv.mk 0 0 0 none))
      = MainResult.mk Outcome.crash ConfigFile.invalid [] :=
  ⟨(invalid_record_crashes "eth0" "aa:bb:cc:dd:ee:ff"
      (Args.mk "eth0" none false false)
      (World.mk (some "ether aa:bb:cc:dd:ee:ff") ConfigFile.invalid
        0 0 0 0 0 0 (WriterEnv.mk 0 0 0 none)) rfl).1,
   (invalid_record_crashes "eth0" "aa:bb:cc:dd:ee:ff"
      (Args.mk "eth0" none false false)
      (World.mk (some "ether aa:bb:cc:dd:ee:ff") ConfigFile.invalid
        0 0 0 0 0 0 (WriterEnv.mk 0 0 0 none)) rfl).2.1,
   (invalid_record_crashes "eth0" "aa:bb:cc:dd:ee:ff"
      (Args.mk "eth0" none false false)
      (World.mk (some "ether aa:bb:cc:dd:ee:ff") ConfigFile.invalid
        0 0 0 0 0 0 (WriterEnv.mk 0 0 0 none)) rfl).2.2
      "aa:bb:cc:dd:ee:ff" (by decide) (by decide)⟩

/-- C6: when the preamble read fails, main reports the read error and
terminates with the record file untouched and the writer never invoked,
for every combination of flags. -/
theorem read_failure_no_action (a : Args) (w : World)
    (h : get_current_mac w.readOutput = none) :
    main a w = MainResult.mk Outcome.readError w.configFile [] := by
  unfold main
  rw [h]

/-- C6 witness: a failing read command with all flags set. -/
theorem read_failure_no_action_witness :
    main (Args.mk "eth0" (some "02:aa:aa:aa:aa:aa") true true)
      (World.mk none (ConfigFile.valid []) 0 0 0 0 0 0 (WriterEnv.mk 0 0 0 none))
    = MainResult.mk Outcome.readError (ConfigFile.valid []) [] :=
  read_failure_no_action
    (Args.mk "eth0" (some "02:aa:aa:aa:aa:aa") true true)
    (World.mk none (ConfigFile.valid []) 0 0 0 0 0 0 (WriterEnv.mk 0 0 0 none))
    rfl

theorem mainActions_show (a : Args) (w : World) (file : ConfigFile)
    (current original : String) (h : a.showFlag = true) :
    mainActions a w file current original
      = MainResult.mk (Outcome.showed current original) file [] := by
  simp [mainActions, h]

/-- C7: whenever the show flag is set, main never invokes the writer, the
restore flag has no effect on the result, and whenever the preamble
succeeds the outcome is the printed pair of current and original MAC. -/
theorem show_takes_precedence (a : Args) (w : World) (h : a.showFlag = true) :
    (main a w).writerCalls = []
    ∧ (∀ b : Bool, main a w = main (Args.mk a.interface a.mac b a.showFlag) w)
    ∧ (∀ cm r, get_current_mac w.readOutput = some cm → cm.isEmpty = false →
        get_original_mac w.configFile a.interface = some r →
        ∃ orig, (main a w).outcome = Outcome.showed cm orig) := by
  have hb : ∀ b : Bool, main a w = main (Args.mk a.interface a.mac b a.showFlag) w := by
    intro b
    unfold main
    cases get_current_mac w.readOutput with
    | none => rfl
    | some cm =>
      by_cases he : cm.isEmpty
      · simp [he]
      · simp only [he, Bool.false_eq_true, if_neg, ite_false]
        cases get_original_mac w.configFile a.interface with
        | none => simp
        | some origOpt =>
          by_cases hf : falsy origOpt
          · simp only [hf, if_true, ite_true]
            cases save_original_mac w.configFile a.interface cm with
            | none => simp
            | some file2 =>
              simp [mainActions_show _ _ _ _ _ h, mainActions_show, h]
          · simp [hf, mainActions_show, h]
  refine ⟨?_, hb, ?_⟩
  · unfold main
    cases get_current_mac w.readOutput with
    | none => rfl
    | some cm =>
      by_cases he : cm.isEmpty
      · simp [he]
      · simp only [he, Bool.false_eq_true, if_neg, ite_false]
        cases get_original_mac w.configFile a.interface with
        | none => simp
        | some origOpt =>
          by_cases hf : falsy origOpt
          · simp only [hf, if_true, ite_true]
            cases save_original_mac w.configFile a.interface cm with
            | none => simp
            | some file2 => simp [mainActions_show _ _ _ _ _ h]
          · simp [hf, mainActions_show _ _ _ _ _ h]
  · intro cm r hcm hemp hget
    unfold main
    rw [hcm, hget]
    by_cases hf : falsy r
    · simp only [hemp, Bool.false_eq_true, if_neg, ite_false, hf, if_true, ite_true]
      cases hs : save_original_mac w.configFile a.interface cm with
      | none =>
        exfalso
        cases hc : w.configFile with
        | invalid => rw [hc] at hget; exact absurd hget (by simp [get_original_mac])
        | absent => rw [hc] at hs; exact absurd hs (by simp [save_original_mac])
        | valid config => rw [hc] at hs; exact absurd hs (by simp [save_original_mac])
      | some file2 =>
        exact ⟨cm, by simp [mainActions_show _ _ _ _ _ h]⟩
    · simp only [hemp, Bool.false_eq_true, if_neg, ite_false, hf, ite_false]
      exact ⟨r.getD cm, by simp [mainActions_show _ _ _ _ _ h]⟩

/-- C7 witness: show and restore both set, successful preamble; restore
being cleared does not change the result, and the outcome is the printed
pair. -/
theorem show_takes_precedence_witness :
    (main (Args.mk "eth0" none true true)
      (World.mk (some "ether aa:bb:cc:dd:ee:ff") (ConfigFile.valid [])
        0 0 0 0 0 0 (WriterEnv.mk 0 0 0 none))).writerCalls = []
    ∧ main (Args.mk "eth0" none true true)
        (World.mk (some "ether aa:bb:cc:dd:ee:ff") (ConfigFile.valid [])
          0 0 0 0 0 0 (WriterEnv.mk 0 0 0 none))
      = main (Args.mk "eth0" none false true)
        (World.mk (some "ether aa:bb:cc:dd:ee:ff") (ConfigFile.valid [])
          0 0 0 0 0 0 (WriterEnv.mk 0 0 0 none))
    ∧ ∃ orig, (main (Args.mk "eth0" none true true)
        (World.mk (some "ether aa:bb:cc:dd:ee:ff") (ConfigFile.valid [])
          0 0 0 0 0 0 (WriterEnv.mk 0 0 0 none))).outcome
      = Outcome.showed "aa:bb:cc:dd:ee:ff" orig :=
  ⟨(show_takes_precedence (Args.mk "eth0" none true true)
      (World.mk (some "ether aa:bb:cc:dd:ee:ff") (ConfigFile.valid [])
        0 0 0 0 0 0 (WriterEnv.mk 0 0 0 none)) rfl).1,
   (show_takes_precedence (Args.mk "eth0" none true true)
      (World.mk (some "ether aa:bb:cc:dd:ee:ff") (ConfigFile.valid [])
        0 0 0 0 0 0 (WriterEnv.mk 0 0 0 none)) rfl).2.1 false,
   (show_takes_precedence (Args.mk "eth0" none true true)
      (World.mk (some "ether aa:bb:cc:dd:ee:ff") (ConfigFile.valid [])
        0 0 0 0 0 0 (WriterEnv.mk 0 0 0 none)) rfl).2.2
      "aa:bb:cc:dd:ee:ff" none (by decide) (by decide) rfl⟩

/-- C1 witness at concrete random bytes. -/
theorem generate_random_mac_locally_administered_unicast_witness :
    (generate_random_mac_bytes 171 205 18 52 86 120).head? = some ((171 &&& 0xFE) ||| 0x02)
    ∧ Nat.testBit ((171 &&& 0xFE) ||| 0x02) 1 = true
    ∧ Nat.testBit ((171 &&& 0xFE) ||| 0x02) 0 = false
    ∧ isCanonicalMac (generate_random_mac 171 205 18 52 86 120).toList = true :=
  generate_random_mac_locally_administered_unicast 171 205 18 52 86 120
    (by decide) (by decide) (by decide) (by decide) (by decide) (by decide)

end Machanger
